import Mathlib

/-!
Shallow embedding of `src/supabase_client/_supabase_clients.py`
(`TableClient`, its CRUD operations, and its error classification).
-/

namespace SupabaseClient

/-- Model of the Python values that flow through the client:
`None`, booleans, integers, strings, lists, tuples and
(string-keyed) dictionaries.  Dictionaries are ordered association
lists, matching Python's insertion-ordered `dict`. -/
inductive PyValue where
  | none : PyValue
  | bool (b : Bool) : PyValue
  | int (n : Int) : PyValue
  | str (s : String) : PyValue
  | list (xs : List PyValue) : PyValue
  | tuple (xs : List PyValue) : PyValue
  | dict (fields : List (String × PyValue)) : PyValue

/-- Python `type(x) is list`. -/
def PyValue.isList : PyValue → Bool
  | .list _ => true
  | _ => false

/-- Python's `Sequence` notion (list, tuple, str), as used by the
spec's words "a sequence"; this is the spec-side definition that the
source's `type(data) is not list` check is compared against. -/
def PyValue.isSequence : PyValue → Bool
  | .list _ => true
  | .tuple _ => true
  | .str _ => true
  | _ => false

mutual

/-- Python `repr(v)` (approximation: string escaping inside `repr` of a
`str` is elided; no claim evaluates `repr` on strings needing escapes). -/
def pyRepr : PyValue → String
  | .none => "None"
  | .bool true => "True"
  | .bool false => "False"
  | .int n => toString n
  | .str s => "'" ++ s ++ "'"
  | .list xs => "[" ++ String.intercalate ", " (pyReprList xs) ++ "]"
  | .tuple xs => "(" ++ String.intercalate ", " (pyReprList xs) ++ ")"
  | .dict fs => "\x7b" ++ String.intercalate ", " (pyReprFields fs) ++ "\x7d"

def pyReprList : List PyValue → List String
  | [] => []
  | v :: vs => pyRepr v :: pyReprList vs

def pyReprFields : List (String × PyValue) → List String
  | [] => []
  | (k, v) :: fs => ("'" ++ k ++ "': " ++ pyRepr v) :: pyReprFields fs

end

/-- Python `str(v)`: identity on strings, `repr`-like elsewhere.
Used by the f-string interpolation `f"{k}={v}"` in `delete` and by
`urlencode`'s `quote_via(str(v))`. -/
def pyStr : PyValue → String
  | .str s => s
  | v => pyRepr v

/-! ### Model of `urllib.parse.urlencode` (stdlib collaborator)

`urlencode` with its defaults renders each pair as
`quote_plus(str(k)) ++ "=" ++ quote_plus(str(v))` and joins pairs with
`&`.  `quote_plus` UTF-8-encodes the string and then maps each byte:
a space becomes `+`, the always-safe bytes (ASCII letters, digits,
`_`, `.`, `-`, `~`) stay literal, and every other byte becomes `%XX`
with uppercase hex digits. -/

/-- UTF-8 encoding of one code point, as byte values. -/
def utf8Bytes (c : Char) : List Nat :=
  let n := c.toNat
  if n < 0x80 then [n]
  else if n < 0x800 then [0xC0 + n / 64, 0x80 + n % 64]
  else if n < 0x10000 then
    [0xE0 + n / 4096, 0x80 + (n / 64) % 64, 0x80 + n % 64]
  else
    [0xF0 + n / 262144, 0x80 + (n / 4096) % 64, 0x80 + (n / 64) % 64,
      0x80 + n % 64]

/-- Uppercase hexadecimal digit for `n < 16`. -/
def hexDigit (n : Nat) : Char :=
  if n < 10 then Char.ofNat (48 + n) else Char.ofNat (55 + n)

/-- `urllib`'s always-safe bytes: ASCII letters, digits, `_`, `.`, `-`, `~`. -/
def alwaysSafe (b : Nat) : Bool :=
  (48 ≤ b && b ≤ 57) || (65 ≤ b && b ≤ 90) || (97 ≤ b && b ≤ 122) ||
    b == 95 || b == 46 || b == 45 || b == 126

/-- How `quote_plus` renders one UTF-8 byte. -/
def quotePlusByte (b : Nat) : List Char :=
  if b == 32 then ['+']
  else if alwaysSafe b then [Char.ofNat b]
  else ['%', hexDigit (b / 16), hexDigit (b % 16)]

/-- `urllib.parse.quote_plus` with empty `safe`, as used by `urlencode`. -/
def quote_plus (s : String) : String :=
  ⟨((s.data.map utf8Bytes).flatten.map quotePlusByte).flatten⟩

/-- `urllib.parse.urlencode` on an (ordered) dict of column/value pairs. -/
def urlencode (target : List (String × PyValue)) : String :=
  String.intercalate "&"
    (target.map fun p => quote_plus p.1 ++ "=" ++ quote_plus (pyStr p.2))

/-! ### Exceptions, result values and requests

`supebase_exceptions.py` is not under `src/`; from its use sites
(`SupabaseError(data)`, `ClientConnectorError(str(err))`,
`UnexpectedValueTypeError(msg)`) and the spec's error taxonomy, each
exception class is a wrapper around its constructor argument. -/

/-- The `SupabaseError` exception: carries the (parsed) response body. -/
structure SupabaseError where
  data : PyValue

/-- The exceptions a `TableClient` operation can raise. -/
inductive Exn where
  | supabase (e : SupabaseError)
  | clientConnector (msg : String)
  | unexpectedValueType (msg : String)

/-- The `Error` namedtuple `(error, data, status)` from
`_supabase_clients.py` line 16. -/
structure Error where
  error : SupabaseError
  data : PyValue
  status : Nat

/-- An HTTP request as handed to the transport: verb, URL, headers and
optional JSON body. -/
structure Request where
  verb : String
  url : String
  headers : List (String × String)
  body : Option PyValue

/-- What the injected HTTP transport does with one request: either a
connector-level failure (`aiohttp.ClientConnectorError` carrying a
message) or a response with a status code and parsed JSON body. -/
inductive TransportResult where
  | connError (msg : String)
  | response (status : Nat) (body : PyValue)

/-! ### The `TableClient` state

`TableClient` extends `TableQueryBuilder` (from `querybuilders.py`,
which is not under `src/`).  The builder state visible in
`_supabase_clients.py` is the accumulated URL `_as_url` consulted by
`query`; it is modelled as a string field, empty when no query has
been accumulated (Python truthiness: `if self._as_url:`). -/

/-- The attributes of a `TableClient` instance (including the inherited
query-builder state `_as_url`). -/
structure TableClient where
  base_url : String
  name : String
  headers : List (String × String)
  success_status_codes : List Nat
  raise_error : Bool
  as_url : String

/-- `TableClient.__init__`: `base_url = api_url + "/" + table_name`,
`success_status_codes = list(range(200, 300))`; the inherited builder
state starts with no accumulated URL. -/
def TableClient.init (api_url table_name : String)
    (headers : List (String × String)) (raise_error : Bool) : TableClient :=
  { base_url := api_url ++ "/" ++ table_name
    name := table_name
    headers := headers
    success_status_codes := List.range' 200 100
    raise_error := raise_error
    as_url := "" }

/-- Python `d.copy()` followed by `d.update({k: v})` on an ordered
dict: replace the value at `k` if present, otherwise append `(k, v)`. -/
def dictUpdate (d : List (String × String)) (k v : String) :
    List (String × String) :=
  if d.any (fun p => p.1 == k) then
    d.map (fun p => if p.1 == k then (k, v) else p)
  else d ++ [(k, v)]

/-- A Python return value: `None` or the `(error-or-None, data)` pair. -/
abbrev ReturnVal := Option (Option Error × PyValue)

/-- Outcome of one awaited operation: an exception or a return value,
together with the request that reached the transport (if any) and the
client state after the call (state passed explicitly). -/
structure CallResult where
  client : TableClient
  request : Option Request
  outcome : Except Exn ReturnVal

/-- `TableClient.is_ok`: `response.status in self.success_status_codes`. -/
def TableClient.is_ok (c : TableClient) (status : Nat) : Bool :=
  c.success_status_codes.contains status

/-- `TableClient._error`: on a non-OK status build `SupabaseError(data)`
and either raise it (`raise_error`) or return the `Error` triple;
on an OK status return `None`. -/
def TableClient._error (c : TableClient) (status : Nat) (data : PyValue) :
    Except Exn (Option Error) :=
  if ¬ c.is_ok status then
    let error := SupabaseError.mk data
    if c.raise_error then Except.error (Exn.supabase error)
    else Except.ok (Option.some (Error.mk error data status))
  else Except.ok Option.none

/-- The shared request/response step of every operation body:
`async with HTTPClient(endpoint, headers) as session: response, json_data
= await session.requests(verb, ...); return self._error(response,
json_data), json_data` wrapped in the `except aiohttp.ClientConnectorError`
handler that re-raises `ClientConnectorError(str(err))`. -/
def httpStep (c : TableClient) (req : Request) (tr : TransportResult) :
    CallResult :=
  match tr with
  | .connError msg =>
    { client := c, request := Option.some req
      outcome := Except.error (Exn.clientConnector msg) }
  | .response status body =>
    match c._error status body with
    | Except.error e =>
      { client := c, request := Option.some req, outcome := Except.error e }
    | Except.ok eopt =>
      { client := c, request := Option.some req
        outcome := Except.ok (Option.some (eopt, body)) }

/-- Modelled from the spec: `TableQueryBuilder.select` (from
`querybuilders.py`, not under `src/`) is a chainable method that
appends a selection term to the accumulated query fragment and returns
the builder itself; afterwards the accumulated URL is
`base_url?select=...`, a non-empty string. -/
def TableClient.select (c : TableClient) (row : String) : TableClient :=
  { c with as_url := c.base_url ++ "?select=" ++ row }

/-- `TableClient.update(target, data)`: copy-and-extend the headers
with `Prefer: return=representation`, build
`f"{base_url}?{urlencode(target)}"` and PATCH `data` to it. -/
def TableClient.update (c : TableClient) (target : List (String × PyValue))
    (data : PyValue) (tr : TransportResult) : CallResult :=
  let headers := dictUpdate c.headers "Prefer" "return=representation"
  let endpoint := c.base_url ++ "?" ++ urlencode target
  httpStep c
    { verb := "PATCH", url := endpoint, headers := headers
      body := Option.some data } tr

/-- `TableClient.insert(data)`: raise `UnexpectedValueTypeError` when
`type(data) is not list` (before any request); otherwise copy-and-extend
the headers with `Prefer: return=representation` and POST `data` to
`base_url`. -/
def TableClient.insert (c : TableClient) (data : PyValue)
    (tr : TransportResult) : CallResult :=
  if ¬ data.isList then
    { client := c, request := Option.none
      outcome :=
        Except.error (Exn.unexpectedValueType "Expected a list for: `value`") }
  else
    let headers := dictUpdate c.headers "Prefer" "return=representation"
    httpStep c
      { verb := "POST", url := c.base_url, headers := headers
        body := Option.some data } tr

/-- Python `s[:-1]`: drop the final character (identity on `""`). -/
def pySliceDropLast (s : String) : String :=
  ⟨s.data.dropLast⟩

/-- `TableClient.delete(target)`: build `f"{base_url}?"`, append
`f"{k}={v}&"` for each item of `target`, drop the final character, and
DELETE with the client's stored headers. -/
def TableClient.delete (c : TableClient) (target : List (String × PyValue))
    (tr : TransportResult) : CallResult :=
  let endpoint :=
    pySliceDropLast
      (target.foldl (fun e p => e ++ p.1 ++ "=" ++ pyStr p.2 ++ "&")
        (c.base_url ++ "?"))
  httpStep c
    { verb := "DELETE", url := endpoint, headers := c.headers
      body := Option.none } tr

/-- `TableClient.customqeury(data)` (spelling from the source): GET
`base_url + "?" + data` with the client's stored headers. -/
def TableClient.customqeury (c : TableClient) (data : String)
    (tr : TransportResult) : CallResult :=
  httpStep c
    { verb := "GET", url := c.base_url ++ "?" ++ data, headers := c.headers
      body := Option.none } tr

/-- `TableClient.query()`: when the accumulated `_as_url` is truthy,
GET it with the client's stored headers; otherwise fall through and
return `None` (no request at all). -/
def TableClient.query (c : TableClient) (tr : TransportResult) : CallResult :=
  if c.as_url ≠ "" then
    httpStep c
      { verb := "GET", url := c.as_url, headers := c.headers
        body := Option.none } tr
  else
    { client := c, request := Option.none, outcome := Except.ok Option.none }

/-- `TableClient.get(row)`: `return self.select(row).query()`.  The
source omits `await` on the inner coroutine (line 61); this embedding
erases the coroutine layer and takes the value the composition computes
once fully awaited. -/
def TableClient.get (c : TableClient) (row : String)
    (tr : TransportResult) : CallResult :=
  (c.select row).query tr

/-! ### Helper lemmas -/

theorem is_ok_iff (c : TableClient)
    (hc : c.success_status_codes = List.range' 200 100) (s : Nat) :
    c.is_ok s = true ↔ 200 ≤ s ∧ s < 300 := by
  rw [TableClient.is_ok, hc]
  simp [List.mem_range']
  constructor
  · rintro ⟨i, hi, rfl⟩; omega
  · rintro ⟨h1, h2⟩; exact ⟨s - 200, by omega, by omega⟩

theorem httpStep_request (c : TableClient) (req : Request)
    (tr : TransportResult) : (httpStep c req tr).request = Option.some req := by
  cases tr with
  | connError msg => rfl
  | response s b =>
    simp only [httpStep]
    cases c._error s b <;> rfl

theorem httpStep_client (c : TableClient) (req : Request)
    (tr : TransportResult) : (httpStep c req tr).client = c := by
  cases tr with
  | connError msg => rfl
  | response s b =>
    simp only [httpStep]
    cases c._error s b <;> rfl

theorem httpStep_conn (c : TableClient) (req : Request) (msg : String) :
    (httpStep c req (.connError msg)).outcome
      = Except.error (Exn.clientConnector msg) := rfl

theorem httpStep_ok (c : TableClient) (req : Request) (s : Nat) (b : PyValue)
    (h : c.is_ok s = true) :
    (httpStep c req (.response s b)).outcome
      = Except.ok (Option.some (Option.none, b)) := by
  simp [httpStep, TableClient._error, h]

theorem httpStep_fail_raise (c : TableClient) (req : Request) (s : Nat)
    (b : PyValue) (h : c.is_ok s = false) (hr : c.raise_error = true) :
    (httpStep c req (.response s b)).outcome
      = Except.error (Exn.supabase (SupabaseError.mk b)) := by
  simp [httpStep, TableClient._error, h, hr]

theorem httpStep_fail_return (c : TableClient) (req : Request) (s : Nat)
    (b : PyValue) (h : c.is_ok s = false) (hr : c.raise_error = false) :
    (httpStep c req (.response s b)).outcome
      = Except.ok (Option.some
          (Option.some (Error.mk (SupabaseError.mk b) b s), b)) := by
  simp [httpStep, TableClient._error, h, hr]

theorem select_as_url_ne (c : TableClient) (row : String) :
    (c.select row).as_url ≠ "" := by
  simp only [TableClient.select]
  intro h
  have h2 : (c.base_url ++ "?select=" ++ row).data = ("" : String).data := by
    rw [h]
  simp [String.data_append] at h2

/-- One filter term of `delete`'s f-string loop. -/
def deleteTerm (p : String × PyValue) : String :=
  p.1 ++ "=" ++ pyStr p.2

/-- The raw concatenation `k1=v1&k2=v2&...&` accumulated by `delete`. -/
def deleteTerms : List (String × PyValue) → String
  | [] => ""
  | p :: ps => deleteTerm p ++ "&" ++ deleteTerms ps

theorem delete_foldl_eq (l : List (String × PyValue)) (init : String) :
    l.foldl (fun e p => e ++ p.1 ++ "=" ++ pyStr p.2 ++ "&") init
      = init ++ deleteTerms l := by
  induction l generalizing init with
  | nil => simp [deleteTerms]
  | cons p ps ih =>
    show ps.foldl _ (init ++ p.1 ++ "=" ++ pyStr p.2 ++ "&")
        = init ++ deleteTerms (p :: ps)
    rw [ih, deleteTerms, deleteTerm]
    simp [String.append_assoc]

/-- `sep ++ a1 ++ sep ++ a2 ++ ...`, the shape accumulated by
`String.intercalate.go`. -/
def sepJoin (sep : String) : List String → String
  | [] => ""
  | a :: as => sep ++ a ++ sepJoin sep as

theorem intercalate_go_eq (sep acc : String) (as : List String) :
    String.intercalate.go acc sep as = acc ++ sepJoin sep as := by
  induction as generalizing acc with
  | nil => simp [String.intercalate.go, sepJoin]
  | cons a as ih =>
    rw [String.intercalate.go, ih, sepJoin]
    simp [String.append_assoc]

theorem intercalate_cons (sep : String) (a : String) (as : List String) :
    String.intercalate sep (a :: as) = a ++ sepJoin sep as := by
  rw [String.intercalate, intercalate_go_eq]

theorem deleteTerms_eq_sepJoin (ps : List (String × PyValue)) :
    "&" ++ deleteTerms ps = sepJoin "&" (ps.map deleteTerm) ++ "&" := by
  induction ps with
  | nil => simp [deleteTerms, sepJoin]
  | cons q qs ih =>
    rw [deleteTerms, List.map_cons, sepJoin]
    rw [show deleteTerm q ++ "&" ++ deleteTerms qs
          = deleteTerm q ++ ("&" ++ deleteTerms qs) from by
        simp [String.append_assoc]]
    rw [ih]
    simp [String.append_assoc, List.map_cons]

theorem deleteTerms_intercalate (p : String × PyValue)
    (ps : List (String × PyValue)) :
    deleteTerms (p :: ps)
      = String.intercalate "&" ((p :: ps).map deleteTerm) ++ "&" := by
  rw [deleteTerms, List.map_cons, intercalate_cons]
  rw [show deleteTerm p ++ "&" ++ deleteTerms ps
        = deleteTerm p ++ ("&" ++ deleteTerms ps) from by
      simp [String.append_assoc]]
  rw [deleteTerms_eq_sepJoin]
  simp [String.append_assoc]

theorem pySliceDropLast_append (s t : String) (ch : Char)
    (h : t.data = [ch]) : pySliceDropLast (s ++ t) = s := by
  apply String.ext
  rw [pySliceDropLast, String.data_append, h]
  exact List.dropLast_concat

set_option maxRecDepth 10000 in
theorem quotePlusByte_chars :
    ∀ b < 256, ∀ ch ∈ quotePlusByte b,
      ch.toNat < 128 ∧ ch ≠ '&' ∧ ch ≠ '=' := by decide

theorem char_toNat_lt (c : Char) : c.toNat < 1114112 := by
  rcases c.valid with h | ⟨h1, h2⟩
  · exact lt_trans h (by norm_num)
  · exact h2

theorem utf8Bytes_lt (c : Char) : ∀ b ∈ utf8Bytes c, b < 256 := by
  intro b hb
  have hc : c.toNat < 1114112 := char_toNat_lt c
  rw [utf8Bytes] at hb
  by_cases h1 : c.toNat < 128
  · simp [h1] at hb; omega
  · by_cases h2 : c.toNat < 2048
    · simp [h1, h2] at hb; rcases hb with rfl | rfl <;> omega
    · by_cases h3 : c.toNat < 65536
      · simp [h1, h2, h3] at hb; rcases hb with rfl | rfl | rfl <;> omega
      · simp [h1, h2, h3] at hb; rcases hb with rfl | rfl | rfl | rfl <;> omega

/-- Every character `quote_plus` emits is plain ASCII and is neither a
literal `&` nor a literal `=`. -/
theorem quote_plus_chars (s : String) :
    ∀ ch ∈ (quote_plus s).data, ch.toNat < 128 ∧ ch ≠ '&' ∧ ch ≠ '=' := by
  intro ch hch
  have hch' :
      ch ∈ ((s.data.map utf8Bytes).flatten.map quotePlusByte).flatten := hch
  rw [List.mem_flatten] at hch'
  obtain ⟨l, hl, hchl⟩ := hch'
  rw [List.mem_map] at hl
  obtain ⟨b, hb, rfl⟩ := hl
  rw [List.mem_flatten] at hb
  obtain ⟨bs, hbs, hbbs⟩ := hb
  rw [List.mem_map] at hbs
  obtain ⟨c, hc, rfl⟩ := hbs
  exact quotePlusByte_chars b (utf8Bytes_lt c b hbbs) ch hchl

/-- The URL `delete` hands to the transport, for a non-empty filter
mapping: the raw `k=str(v)` terms joined by `&`, no trailing `&`. -/
theorem delete_request_url (c : TableClient)
    (target : List (String × PyValue)) (tr : TransportResult)
    (h : target ≠ []) :
    ((c.delete target tr).request).map Request.url
      = Option.some (c.base_url ++ "?"
          ++ String.intercalate "&" (target.map deleteTerm)) := by
  match target, h with
  | p :: ps, _ =>
    rw [TableClient.delete, httpStep_request, Option.map_some']
    rw [delete_foldl_eq, deleteTerms_intercalate]
    rw [show c.base_url ++ "?"
          ++ (String.intercalate "&" ((p :: ps).map deleteTerm) ++ "&")
        = (c.base_url ++ "?"
            ++ String.intercalate "&" ((p :: ps).map deleteTerm)) ++ "&" from by
      simp [String.append_assoc]]
    rw [pySliceDropLast_append _ _ '&' rfl]

theorem update_eq (c : TableClient) (target : List (String × PyValue))
    (dat : PyValue) (tr : TransportResult) :
    c.update target dat tr
      = httpStep c
          { verb := "PATCH", url := c.base_url ++ "?" ++ urlencode target
            headers := dictUpdate c.headers "Prefer" "return=representation"
            body := Option.some dat } tr := rfl

theorem insert_eq (c : TableClient) (xs : List PyValue)
    (tr : TransportResult) :
    c.insert (.list xs) tr
      = httpStep c
          { verb := "POST", url := c.base_url
            headers := dictUpdate c.headers "Prefer" "return=representation"
            body := Option.some (.list xs) } tr := rfl

theorem delete_eq (c : TableClient) (target : List (String × PyValue))
    (tr : TransportResult) :
    c.delete target tr
      = httpStep c
          { verb := "DELETE"
            url := pySliceDropLast
              (target.foldl (fun e p => e ++ p.1 ++ "=" ++ pyStr p.2 ++ "&")
                (c.base_url ++ "?"))
            headers := c.headers, body := Option.none } tr := rfl

theorem customqeury_eq (c : TableClient) (raw : String)
    (tr : TransportResult) :
    c.customqeury raw tr
      = httpStep c
          { verb := "GET", url := c.base_url ++ "?" ++ raw
            headers := c.headers, body := Option.none } tr := rfl

theorem query_eq (c : TableClient) (tr : TransportResult)
    (hq : c.as_url ≠ "") :
    c.query tr
      = httpStep c
          { verb := "GET", url := c.as_url, headers := c.headers
            body := Option.none } tr := by
  rw [TableClient.query, if_pos hq]

theorem get_eq (c : TableClient) (row : String) (tr : TransportResult) :
    c.get row tr
      = httpStep (c.select row)
          { verb := "GET", url := c.base_url ++ "?select=" ++ row
            headers := c.headers, body := Option.none } tr := by
  rw [TableClient.get, TableClient.query, if_pos (select_as_url_ne c row)]
  rfl

/-! ### Concrete instances used by witnesses -/

/-- A client constructed with `raise_error=True`. -/
def cTrue : TableClient := TableClient.init "u" "t" [("apiKey", "k")] true

/-- A client constructed with `raise_error=False`. -/
def cFalse : TableClient := TableClient.init "u" "t" [("apiKey", "k")] false

/-- The error body of the spec's 404 example. -/
def notFound : PyValue := PyValue.dict [("message", PyValue.str "not found")]

/-! ### The claims -/

/-- C1: for every operation (get, insert, update, delete, customquery,
query) and every HTTP response, the response is classified as
successful iff its status code lies in [200, 300); on success the
operation returns the pair `(None, parsed-body)`, and on
failure-without-raise it returns a pair whose first component is an
error value bundling the server payload, raw data and status code. -/
theorem C1_response_classification
    (c : TableClient) (hc : c.success_status_codes = List.range' 200 100)
    (row raw : String) (xs : List PyValue)
    (target : List (String × PyValue)) (dat : PyValue)
    (hq : c.as_url ≠ "") (status : Nat) (body : PyValue) :
    (c.is_ok status = true ↔ 200 ≤ status ∧ status < 300) ∧
    (200 ≤ status ∧ status < 300 →
      (c.get row (.response status body)).outcome
          = Except.ok (Option.some (Option.none, body)) ∧
      (c.insert (.list xs) (.response status body)).outcome
          = Except.ok (Option.some (Option.none, body)) ∧
      (c.update target dat (.response status body)).outcome
          = Except.ok (Option.some (Option.none, body)) ∧
      (c.delete target (.response status body)).outcome
          = Except.ok (Option.some (Option.none, body)) ∧
      (c.customqeury raw (.response status body)).outcome
          = Except.ok (Option.some (Option.none, body)) ∧
      (c.query (.response status body)).outcome
          = Except.ok (Option.some (Option.none, body))) ∧
    (¬ (200 ≤ status ∧ status < 300) → c.raise_error = false →
      (c.get row (.response status body)).outcome
          = Except.ok (Option.some (Option.some
              (Error.mk (SupabaseError.mk body) body status), body)) ∧
      (c.insert (.list xs) (.response status body)).outcome
          = Except.ok (Option.some (Option.some
              (Error.mk (SupabaseError.mk body) body status), body)) ∧
      (c.update target dat (.response status body)).outcome
          = Except.ok (Option.some (Option.some
              (Error.mk (SupabaseError.mk body) body status), body)) ∧
      (c.delete target (.response status body)).outcome
          = Except.ok (Option.some (Option.some
              (Error.mk (SupabaseError.mk body) body status), body)) ∧
      (c.customqeury raw (.response status body)).outcome
          = Except.ok (Option.some (Option.some
              (Error.mk (SupabaseError.mk body) body status), body)) ∧
      (c.query (.response status body)).outcome
          = Except.ok (Option.some (Option.some
              (Error.mk (SupabaseError.mk body) body status), body))) := by
  have hiff := is_ok_iff c hc status
  refine ⟨hiff, ?_, ?_⟩
  · intro hs
    have hok : c.is_ok status = true := hiff.mpr hs
    have hoks : (c.select row).is_ok status = true := hok
    exact ⟨by rw [get_eq]; exact httpStep_ok _ _ _ _ hoks,
      by rw [insert_eq]; exact httpStep_ok _ _ _ _ hok,
      by rw [update_eq]; exact httpStep_ok _ _ _ _ hok,
      by rw [delete_eq]; exact httpStep_ok _ _ _ _ hok,
      by rw [customqeury_eq]; exact httpStep_ok _ _ _ _ hok,
      by rw [query_eq c _ hq]; exact httpStep_ok _ _ _ _ hok⟩
  · intro hs hr
    have hok : c.is_ok status = false := by
      rcases Bool.eq_false_or_eq_true (c.is_ok status) with h | h
      · exact absurd (hiff.mp h) hs
      · exact h
    have hoks : (c.select row).is_ok status = false := hok
    have hrs : (c.select row).raise_error = false := hr
    exact ⟨by rw [get_eq]; exact httpStep_fail_return _ _ _ _ hoks hrs,
      by rw [insert_eq]; exact httpStep_fail_return _ _ _ _ hok hr,
      by rw [update_eq]; exact httpStep_fail_return _ _ _ _ hok hr,
      by rw [delete_eq]; exact httpStep_fail_return _ _ _ _ hok hr,
      by rw [customqeury_eq]; exact httpStep_fail_return _ _ _ _ hok hr,
      by rw [query_eq c _ hq]; exact httpStep_fail_return _ _ _ _ hok hr⟩

/-- Witness for C1: a 200 response yields `(None, body)` and a 404
response on a `raise_error=False` client yields the bundled error
triple, at concrete inputs. -/
theorem C1_response_classification_witness :
    ((cFalse.select "r").get "r" (.response 200 notFound)).outcome
        = Except.ok (Option.some (Option.none, notFound)) ∧
    ((cFalse.select "r").delete [("id", PyValue.int 3)]
        (.response 404 notFound)).outcome
      = Except.ok (Option.some
          (Option.some (Error.mk (SupabaseError.mk notFound) notFound 404),
            notFound)) := by
  have h200 := C1_response_classification (cFalse.select "r") rfl "r" "q" []
    [("id", PyValue.int 3)] PyValue.none (by decide) 200 notFound
  have h404 := C1_response_classification (cFalse.select "r") rfl "r" "q" []
    [("id", PyValue.int 3)] PyValue.none (by decide) 404 notFound
  exact ⟨(h200.2.1 (by omega)).1, ((h404.2.2 (by omega) rfl).2.2.2.1)⟩

/-- C2: for every operation and every response with a non-2xx status
code, a client constructed with `raise_error=True` raises a
`SupabaseError` carrying the response body, and with
`raise_error=False` the call instead returns
`(Error(error=..., data=body, status=status), body)` without raising. -/
theorem C2_raise_error_toggle
    (c : TableClient) (hc : c.success_status_codes = List.range' 200 100)
    (row raw : String) (xs : List PyValue)
    (target : List (String × PyValue)) (dat : PyValue)
    (hq : c.as_url ≠ "") (status : Nat)
    (hs : ¬ (200 ≤ status ∧ status < 300)) (body : PyValue) :
    (c.raise_error = true →
      (c.get row (.response status body)).outcome
          = Except.error (Exn.supabase (SupabaseError.mk body)) ∧
      (c.insert (.list xs) (.response status body)).outcome
          = Except.error (Exn.supabase (SupabaseError.mk body)) ∧
      (c.update target dat (.response status body)).outcome
          = Except.error (Exn.supabase (SupabaseError.mk body)) ∧
      (c.delete target (.response status body)).outcome
          = Except.error (Exn.supabase (SupabaseError.mk body)) ∧
      (c.customqeury raw (.response status body)).outcome
          = Except.error (Exn.supabase (SupabaseError.mk body)) ∧
      (c.query (.response status body)).outcome
          = Except.error (Exn.supabase (SupabaseError.mk body))) ∧
    (c.raise_error = false →
      (c.get row (.response status body)).outcome
          = Except.ok (Option.some (Option.some
              (Error.mk (SupabaseError.mk body) body status), body)) ∧
      (c.insert (.list xs) (.response status body)).outcome
          = Except.ok (Option.some (Option.some
              (Error.mk (SupabaseError.mk body) body status), body)) ∧
      (c.update target dat (.response status body)).outcome
          = Except.ok (Option.some (Option.some
              (Error.mk (SupabaseError.mk body) body status), body)) ∧
      (c.delete target (.response status body)).outcome
          = Except.ok (Option.some (Option.some
              (Error.mk (SupabaseError.mk body) body status), body)) ∧
      (c.customqeury raw (.response status body)).outcome
          = Except.ok (Option.some (Option.some
              (Error.mk (SupabaseError.mk body) body status), body)) ∧
      (c.query (.response status body)).outcome
          = Except.ok (Option.some (Option.some
              (Error.mk (SupabaseError.mk body) body status), body))) := by
  have hiff := is_ok_iff c hc status
  have hok : c.is_ok status = false := by
    rcases Bool.eq_false_or_eq_true (c.is_ok status) with h | h
    · exact absurd (hiff.mp h) hs
    · exact h
  have hoks : (c.select row).is_ok status = false := hok
  constructor
  · intro hr
    have hrs : (c.select row).raise_error = true := hr
    exact ⟨by rw [get_eq]; exact httpStep_fail_raise _ _ _ _ hoks hrs,
      by rw [insert_eq]; exact httpStep_fail_raise _ _ _ _ hok hr,
      by rw [update_eq]; exact httpStep_fail_raise _ _ _ _ hok hr,
      by rw [delete_eq]; exact httpStep_fail_raise _ _ _ _ hok hr,
      by rw [customqeury_eq]; exact httpStep_fail_raise _ _ _ _ hok hr,
      by rw [query_eq c _ hq]; exact httpStep_fail_raise _ _ _ _ hok hr⟩
  · intro hr
    have hrs : (c.select row).raise_error = false := hr
    exact ⟨by rw [get_eq]; exact httpStep_fail_return _ _ _ _ hoks hrs,
      by rw [insert_eq]; exact httpStep_fail_return _ _ _ _ hok hr,
      by rw [update_eq]; exact httpStep_fail_return _ _ _ _ hok hr,
      by rw [delete_eq]; exact httpStep_fail_return _ _ _ _ hok hr,
      by rw [customqeury_eq]; exact httpStep_fail_return _ _ _ _ hok hr,
      by rw [query_eq c _ hq]; exact httpStep_fail_return _ _ _ _ hok hr⟩

/-- Witness for C2: the spec's example — a 404 response with body
`{"message": "not found"}`; with `raise_error=True` `delete` raises the
`SupabaseError` carrying that body, with `raise_error=False` it returns
`(Error(error=..., data=..., status=404), body)`. -/
theorem C2_raise_error_toggle_witness :
    ((cTrue.select "r").delete [("id", PyValue.int 3)]
        (.response 404 notFound)).outcome
      = Except.error (Exn.supabase (SupabaseError.mk notFound)) ∧
    ((cFalse.select "r").delete [("id", PyValue.int 3)]
        (.response 404 notFound)).outcome
      = Except.ok (Option.some
          (Option.some (Error.mk (SupabaseError.mk notFound) notFound 404),
            notFound)) := by
  have ht := C2_raise_error_toggle (cTrue.select "r") rfl "r" "q" []
    [("id", PyValue.int 3)] PyValue.none (by decide) 404 (by omega) notFound
  have hf := C2_raise_error_toggle (cFalse.select "r") rfl "r" "q" []
    [("id", PyValue.int 3)] PyValue.none (by decide) 404 (by omega) notFound
  exact ⟨(ht.1 rfl).2.2.2.1, (hf.2 rfl).2.2.2.1⟩

/-- C3 as stated is false: a tuple of row mappings is a Python
sequence, yet `insert` raises `UnexpectedValueTypeError` on it — the
source checks `type(data) is not list`, not "is not a sequence". -/
theorem C3_counterexample :
    (PyValue.tuple [PyValue.dict [("title", PyValue.str "hi")]]).isSequence
        = true ∧
    (cTrue.insert (PyValue.tuple [PyValue.dict [("title", PyValue.str "hi")]])
        (.response 201 PyValue.none)).outcome
      = Except.error
          (Exn.unexpectedValueType "Expected a list for: `value`") ∧
    (cTrue.insert (PyValue.tuple [PyValue.dict [("title", PyValue.str "hi")]])
        (.response 201 PyValue.none)).request = Option.none :=
  ⟨rfl, rfl, rfl⟩

/-- C3, amended: `insert(data)` raises `UnexpectedValueTypeError` if
and only if `data` is not a *list* (`type(data) is not list`); when it
raises, no request reaches the transport and the raise is independent
of the `raise_error` configuration; when `data` is a list, validation
passes and one POST request is issued. -/
theorem C3_insert_validation (c : TableClient) (dat : PyValue)
    (tr : TransportResult) :
    (dat.isList = false →
      (c.insert dat tr).outcome
          = Except.error
              (Exn.unexpectedValueType "Expected a list for: `value`") ∧
      (c.insert dat tr).request = Option.none) ∧
    (dat.isList = true →
      (∀ msg, (c.insert dat tr).outcome
          ≠ Except.error (Exn.unexpectedValueType msg)) ∧
      ∃ req, (c.insert dat tr).request = Option.some req
        ∧ req.verb = "POST") := by
  constructor
  · intro h
    rw [TableClient.insert]
    simp [h]
  · intro h
    match dat, h with
    | .list xs, _ =>
      constructor
      · intro msg
        rw [insert_eq]
        cases tr with
        | connError m => simp [httpStep]
        | response s b =>
          simp only [httpStep]
          rcases he : TableClient._error c s b with e | eopt
          · rw [TableClient._error] at he
            split at he
            · split at he
              · simp at he
                subst he
                simp
              · simp at he
            · simp at he
          · simp
      · exact ⟨_, by rw [insert_eq, httpStep_request], rfl⟩

/-- Witness for C3 (amended): a list input issues a POST and a tuple
input is rejected before any request, at concrete inputs. -/
theorem C3_insert_validation_witness :
    ((cTrue.insert (PyValue.list []) (.response 201 PyValue.none)).request).map
        Request.verb = Option.some "POST" ∧
    (cTrue.insert (PyValue.tuple []) (.response 201 PyValue.none)).request
        = Option.none := by
  have hl := C3_insert_validation cTrue (PyValue.list [])
    (.response 201 PyValue.none)
  have ht := C3_insert_validation cTrue (PyValue.tuple [])
    (.response 201 PyValue.none)
  obtain ⟨req, hreq, hverb⟩ := (hl.2 rfl).2
  exact ⟨by rw [hreq, Option.map_some', hverb], (ht.1 rfl).2⟩

/-- C4 as stated is false: `delete` places filter values in the URL by
raw f-string concatenation with no percent-encoding, so a value
containing `=` appears literally; form-encoding would have rendered
`a=x%3Dy`. -/
theorem C4_counterexample :
    ((cTrue.delete [("a", PyValue.str "x=y")]
        (.response 200 PyValue.none)).request).map Request.url
      = Option.some "u/t?a=x=y" ∧
    "u/t?" ++ urlencode [("a", PyValue.str "x=y")] = "u/t?a=x%3Dy" ∧
    ((cTrue.delete [("a", PyValue.str "x=y")]
        (.response 200 PyValue.none)).request).map Request.url
      ≠ Option.some ("u/t?" ++ urlencode [("a", PyValue.str "x=y")]) := by
  exact ⟨rfl, by decide, by decide⟩

/-- C4 amended: `update` percent-encodes its filter terms with standard
form-encoding (`urlencode`), whose encoded fragments are pure ASCII and
never contain a literal `&` or `=`; `delete`, by contrast, renders its
filter terms literally (`k=str(v)` joined by `&`) with no encoding at
all. -/
theorem C4_filter_encoding (c : TableClient)
    (target : List (String × PyValue)) (dat : PyValue)
    (tr : TransportResult) (h : target ≠ []) :
    ((c.update target dat tr).request).map Request.url
        = Option.some (c.base_url ++ "?" ++ urlencode target) ∧
    (∀ p ∈ target, ∀ ch ∈ (quote_plus (pyStr p.2)).data,
        ch.toNat < 128 ∧ ch ≠ '&' ∧ ch ≠ '=') ∧
    ((c.delete target tr).request).map Request.url
        = Option.some (c.base_url ++ "?"
            ++ String.intercalate "&" (target.map deleteTerm)) := by
  refine ⟨?_, ?_, delete_request_url c target tr h⟩
  · rw [update_eq, httpStep_request, Option.map_some']
  · intro p hp
    exact quote_plus_chars (pyStr p.2)

/-- Witness for C4 (amended) at a concrete filter mapping whose value
contains `=`. -/
theorem C4_filter_encoding_witness :
    ((cTrue.update [("a", PyValue.str "x=y")] PyValue.none
        (.response 200 PyValue.none)).request).map Request.url
      = Option.some (cTrue.base_url ++ "?"
          ++ urlencode [("a", PyValue.str "x=y")]) ∧
    ('x'.toNat < 128 ∧ 'x' ≠ '&' ∧ 'x' ≠ '=') := by
  have h := C4_filter_encoding cTrue [("a", PyValue.str "x=y")] PyValue.none
    (.response 200 PyValue.none) (List.cons_ne_nil _ _)
  exact ⟨h.1,
    h.2.1 ("a", PyValue.str "x=y") (List.mem_cons_self _ _) 'x' (by decide)⟩

/-- C5: when the transport fails at the connector level, every
operation raises the distinguished `ClientConnectorError` wrapping the
underlying transport message — never the raw transport exception — and
it does so for any client, i.e. independently of `raise_error`. -/
theorem C5_connector_error (c : TableClient) (msg row raw : String)
    (xs : List PyValue) (target : List (String × PyValue)) (dat : PyValue)
    (hq : c.as_url ≠ "") :
    (c.get row (.connError msg)).outcome
        = Except.error (Exn.clientConnector msg) ∧
    (c.insert (.list xs) (.connError msg)).outcome
        = Except.error (Exn.clientConnector msg) ∧
    (c.update target dat (.connError msg)).outcome
        = Except.error (Exn.clientConnector msg) ∧
    (c.delete target (.connError msg)).outcome
        = Except.error (Exn.clientConnector msg) ∧
    (c.customqeury raw (.connError msg)).outcome
        = Except.error (Exn.clientConnector msg) ∧
    (c.query (.connError msg)).outcome
        = Except.error (Exn.clientConnector msg) :=
  ⟨by rw [get_eq]; exact httpStep_conn _ _ _,
    by rw [insert_eq]; exact httpStep_conn _ _ _,
    by rw [update_eq]; exact httpStep_conn _ _ _,
    by rw [delete_eq]; exact httpStep_conn _ _ _,
    by rw [customqeury_eq]; exact httpStep_conn _ _ _,
    by rw [query_eq c _ hq]; exact httpStep_conn _ _ _⟩

/-- Witness for C5 at a concrete client and message, for both values of
`raise_error`. -/
theorem C5_connector_error_witness :
    ((cTrue.select "r").delete [("id", PyValue.int 3)]
        (.connError "Cannot connect to host")).outcome
      = Except.error (Exn.clientConnector "Cannot connect to host") ∧
    ((cFalse.select "r").query (.connError "Cannot connect to host")).outcome
      = Except.error (Exn.clientConnector "Cannot connect to host") := by
  have ht := C5_connector_error (cTrue.select "r") "Cannot connect to host"
    "r" "q" [] [("id", PyValue.int 3)] PyValue.none (by decide)
  have hf := C5_connector_error (cFalse.select "r") "Cannot connect to host"
    "r" "q" [] [("id", PyValue.int 3)] PyValue.none (by decide)
  exact ⟨ht.2.2.2.1, hf.2.2.2.2.2⟩

/-- C6: `insert` and `update` send their request with a header mapping
equal to the client's stored headers extended (by copying) with
`Prefer: return=representation`, and no operation mutates the client's
stored configuration — headers, base URL and `raise_error` are the same
before and after every call. -/
theorem C6_headers_copied_never_mutated (c : TableClient)
    (target : List (String × PyValue)) (dat : PyValue)
    (tr : TransportResult) (row raw : String) (xs : List PyValue) :
    ((c.update target dat tr).request).map Request.headers
        = Option.some (dictUpdate c.headers "Prefer" "return=representation") ∧
    ((c.insert (.list xs) tr).request).map Request.headers
        = Option.some (dictUpdate c.headers "Prefer" "return=representation") ∧
    (c.update target dat tr).client = c ∧
    (c.insert dat tr).client = c ∧
    (c.delete target tr).client = c ∧
    (c.customqeury raw tr).client = c ∧
    (c.query tr).client = c ∧
    (c.get row tr).client.headers = c.headers ∧
    (c.get row tr).client.base_url = c.base_url ∧
    (c.get row tr).client.raise_error = c.raise_error := by
  have hget : (c.get row tr).client = c.select row := by
    rw [get_eq, httpStep_client]
  refine ⟨?_, ?_, ?_, ?_, ?_, ?_, ?_, ?_, ?_, ?_⟩
  · rw [update_eq, httpStep_request, Option.map_some']
  · rw [insert_eq, httpStep_request, Option.map_some']
  · rw [update_eq, httpStep_client]
  · rw [TableClient.insert]
    split
    · rfl
    · exact httpStep_client _ _ _
  · rw [delete_eq, httpStep_client]
  · rw [customqeury_eq, httpStep_client]
  · rw [TableClient.query]
    split
    · exact httpStep_client _ _ _
    · rfl
  · rw [hget]; rfl
  · rw [hget]; rfl
  · rw [hget]; rfl

/-- C7: for every non-empty filter mapping, `delete` requests
`base_url ++ "?"` followed by the `key=value` terms joined by `&`, with
no trailing `&`. -/
theorem C7_delete_url (c : TableClient) (target : List (String × PyValue))
    (tr : TransportResult) (h : target ≠ []) :
    ((c.delete target tr).request).map Request.url
      = Option.some (c.base_url ++ "?" ++ String.intercalate "&"
          (target.map fun p => p.1 ++ "=" ++ pyStr p.2)) := by
  have hd := delete_request_url c target tr h
  simpa only [deleteTerm] using hd

/-- Witness for C7: `delete({"id": 3})` requests an endpoint ending in
`?id=3`. -/
theorem C7_delete_url_witness :
    ((cTrue.delete [("id", PyValue.int 3)]
        (.response 200 PyValue.none)).request).map Request.url
      = Option.some (cTrue.base_url ++ "?" ++ String.intercalate "&"
          ([("id", PyValue.int 3)].map fun p => p.1 ++ "=" ++ pyStr p.2)) ∧
    ((cTrue.delete [("id", PyValue.int 3)]
        (.response 200 PyValue.none)).request).map Request.url
      = Option.some "u/t?id=3" :=
  ⟨C7_delete_url cTrue [("id", PyValue.int 3)]
      (.response 200 PyValue.none) (List.cons_ne_nil _ _), rfl⟩

/-- C8: on a 200 response with body `{"id":1,"title":"hi"}`, the
(async-erased) composition `get = select ∘ query` computes the pair
`(None, {"id":1,"title":"hi"})`.  NOTE: in the source, `get` returns
`self.select(row).query()` without awaiting it (line 61 of
`_supabase_clients.py`), so a *single* `await` of `get` yields the
un-awaited inner coroutine object; the pair below is what that inner
coroutine produces once awaited, matching the docstring's intent. -/
theorem C8_get_success :
    (cTrue.get "r" (.response 200
        (PyValue.dict
          [("id", PyValue.int 1), ("title", PyValue.str "hi")]))).outcome
      = Except.ok (Option.some (Option.none,
          PyValue.dict
            [("id", PyValue.int 1), ("title", PyValue.str "hi")])) := rfl

/-- C9: `delete({})` with an empty filter mapping strips the lone `?`
and issues the DELETE against the bare table endpoint — `base_url` with
no query string at all. -/
theorem C9_delete_empty_target (c : TableClient) (tr : TransportResult) :
    (c.delete [] tr).request
      = Option.some
          { verb := "DELETE", url := c.base_url, headers := c.headers
            body := Option.none } := by
  rw [delete_eq, httpStep_request, List.foldl_nil,
    pySliceDropLast_append c.base_url "?" '?' rfl]

/-- C10: `update(target, data)` with an empty target requests the URL
`base_url ++ "?"` — a dangling `?` with nothing after it — because the
encoded filter fragment is empty but the `?` separator is appended
unconditionally. -/
theorem C10_update_empty_target (c : TableClient) (dat : PyValue)
    (tr : TransportResult) :
    ((c.update [] dat tr).request).map Request.url
      = Option.some (c.base_url ++ "?") := by
  rw [update_eq, httpStep_request, Option.map_some',
    show urlencode [] = "" from rfl, String.append_empty]

end SupabaseClient
